import Mathlib

/-! Verification development for the task-planner web backend (src/app.py).

The file shallowly embeds the plan-generation and persistence core of the
program: the local fallback plan generator `generate_plan_locally`, the remote
generator wrapper `generate_plan_with_groq`, the request handler
`generate_plan_endpoint` with its fallback orchestration and MongoDB inserts,
and the dependency-normalization write/read paths (`writeDeps` / `readDeps`,
backed by models of Python's `json.dumps` / `json.loads`).

Python values are modelled by the inductive `PyVal`; Python exceptions by
`PyErr` with fallible operations returning `Except PyErr`.  Machine-level
details that no theorem needs (float arithmetic, unicode case tables beyond
ASCII) are modelled at the granularity noted on each definition. -/

/-- Python runtime values relevant to the program: None, bools, ints, floats
(carried as literal text, since no behaviour here depends on float
arithmetic), strings, lists, and string-keyed dicts represented as
association lists with unique keys. -/
inductive PyVal where
  | pyNone : PyVal
  | pyBool : Bool → PyVal
  | pyInt : Int → PyVal
  | pyFloat : String → PyVal
  | pyStr : String → PyVal
  | pyList : List PyVal → PyVal
  | pyDict : List (String × PyVal) → PyVal

/-- Python exceptions that the embedded code can raise. -/
inductive PyErr where
  | connectionError : String → PyErr
  | typeError : String → PyErr
  | attributeError : String → PyErr
  | keyError : String → PyErr
deriving DecidableEq

/-- The ASCII whitespace characters recognized by Python's `str.strip` and by
the regex class for spaces (ASCII fragment of the unicode sets). -/
def pyIsSpaceCh (c : Char) : Bool :=
  c = ' ' || c = '\t' || c = '\n' || c = '\r' || c = '\x0b' || c = '\x0c'

def pyStripList (cs : List Char) : List Char :=
  ((cs.dropWhile pyIsSpaceCh).reverse.dropWhile pyIsSpaceCh).reverse

/-- Python `str.strip()` with no argument (ASCII-whitespace fragment). -/
def pyStrip (s : String) : String := String.mk (pyStripList s.data)

/-- Python `str.lower()` (ASCII fragment, via `Char.toLower`). -/
def pyLower (s : String) : String := String.mk (s.data.map Char.toLower)

def startsWithList : List Char → List Char → Bool
  | _, [] => true
  | [], _ :: _ => false
  | a :: as, b :: bs => a = b && startsWithList as bs

/-- Substring containment on character lists, as Python's binary `in`
operator behaves on two strings. -/
def containsSubList : List Char → List Char → Bool
  | [], needle => needle.isEmpty
  | a :: hs, needle => startsWithList (a :: hs) needle || containsSubList hs needle

/-- Python `needle in hay` for two strings. -/
def containsSub (hay needle : String) : Bool := containsSubList hay.data needle.data

/-- Python `sep.join(parts)` for string parts. -/
def concatSep (sep : String) : List String → String
  | [] => ""
  | [x] => x
  | x :: y :: xs => x ++ sep ++ concatSep sep (y :: xs)

/-- Key lookup in a string-keyed Python dict. -/
def dictLookup : List (String × PyVal) → String → Option PyVal
  | [], _ => Option.none
  | (k, v) :: rest, key => if k = key then some v else dictLookup rest key

/-- Python `d.get(k)`: the value when the key is present, `None` otherwise. -/
def dictGetDefault (fs : List (String × PyVal)) (k : String) : PyVal :=
  (dictLookup fs k).getD PyVal.pyNone

/-- Key insertion as the Python dict builder performs it while decoding a
JSON object: an existing key keeps its position and gets the new value, a
fresh key is appended. -/
def dictInsert : List (String × PyVal) → String → PyVal → List (String × PyVal)
  | [], k, v => [(k, v)]
  | (k0, v0) :: rest, k, v =>
    if k0 = k then (k0, v) :: rest else (k0, v0) :: dictInsert rest k v

/-- Truthiness of a float literal: falsy exactly when it denotes zero.  The
approximation used (some digit present and every digit is zero) is exact for
every literal `json.loads` can produce except exponent forms of zero. -/
def floatLitTruthy (lit : String) : Bool :=
  !(lit.data.any Char.isDigit) || lit.data.any (fun c => c.isDigit && c ≠ '0')

/-- Python truthiness, as used by `if not data` and `if not plan_data`. -/
def pyTruthy : PyVal → Bool
  | PyVal.pyNone => false
  | PyVal.pyBool b => b
  | PyVal.pyInt n => n != 0
  | PyVal.pyFloat lit => floatLitTruthy lit
  | PyVal.pyStr s => s != ""
  | PyVal.pyList xs => !xs.isEmpty
  | PyVal.pyDict fs => !fs.isEmpty

/-- Python membership `k in v` for a string `k`: key lookup on dicts, element
equality on lists (a non-string element never equals a string), substring on
strings, and TypeError on non-containers. -/
def pyContainsStr (k : String) (v : PyVal) : Except PyErr Bool :=
  match v with
  | PyVal.pyDict fs => Except.ok (dictLookup fs k).isSome
  | PyVal.pyList xs =>
    Except.ok (xs.any fun x => match x with | PyVal.pyStr s => s = k | _ => false)
  | PyVal.pyStr s => Except.ok (containsSub s k)
  | _ => Except.error (PyErr.typeError ("argument is not a container"))

/-- Python subscript `v[k]` for a string key: dict lookup raising KeyError on
a missing key; every other receiver raises TypeError for a string index. -/
def pySubscriptStr (v : PyVal) (k : String) : Except PyErr PyVal :=
  match v with
  | PyVal.pyDict fs =>
    match dictLookup fs k with
    | some x => Except.ok x
    | Option.none => Except.error (PyErr.keyError k)
  | _ => Except.error (PyErr.typeError ("value is not subscriptable by a string"))

/-- Python iteration `for x in v`: lists yield elements, strings yield their
characters, dicts yield their keys, anything else raises TypeError. -/
def pyIter : PyVal → Except PyErr (List PyVal)
  | PyVal.pyList xs => Except.ok xs
  | PyVal.pyStr s => Except.ok (s.data.map fun c => PyVal.pyStr (String.mk [c]))
  | PyVal.pyDict fs => Except.ok (fs.map fun kv => PyVal.pyStr kv.1)
  | _ => Except.error (PyErr.typeError ("value is not iterable"))

/-- JSON whitespace accepted between tokens by Python's `json.loads`. -/
def jsonWs (c : Char) : Bool := c = ' ' || c = '\t' || c = '\n' || c = '\r'

def skipWs (cs : List Char) : List Char := cs.dropWhile jsonWs

/-- Consume an expected literal tail, returning the remaining input. -/
def stripLit : List Char → List Char → Option (List Char)
  | cs, [] => some cs
  | [], _ :: _ => Option.none
  | c :: cs, l :: ls => if c = l then stripLit cs ls else Option.none

def takeDigitsList : List Char → List Char × List Char
  | [] => ([], [])
  | c :: rest =>
    if c.isDigit then
      let p := takeDigitsList rest
      (c :: p.1, p.2)
    else ([], c :: rest)

def digitsToNat (ds : List Char) : Nat :=
  ds.foldl (fun a c => 10 * a + (c.toNat - 48)) 0

def parseFrac : List Char → Option (List Char × List Char)
  | '.' :: r2 =>
    match takeDigitsList r2 with
    | ([], _) => Option.none
    | (fs, r3) => some ('.' :: fs, r3)
  | cs => some ([], cs)

def parseExpTail (e : Char) : List Char → Option (List Char × List Char)
  | '+' :: r3 =>
    match takeDigitsList r3 with
    | ([], _) => Option.none
    | (ds, r4) => some (e :: '+' :: ds, r4)
  | '-' :: r3 =>
    match takeDigitsList r3 with
    | ([], _) => Option.none
    | (ds, r4) => some (e :: '-' :: ds, r4)
  | r3 =>
    match takeDigitsList r3 with
    | ([], _) => Option.none
    | (ds, r4) => some (e :: ds, r4)

def parseExp : List Char → Option (List Char × List Char)
  | 'e' :: r2 => parseExpTail 'e' r2
  | 'E' :: r2 => parseExpTail 'E' r2
  | cs => some ([], cs)

/-- Parse a JSON number as Python's decoder does: no leading zeros, an
integral literal becomes an int, a literal with fraction or exponent becomes
a float (kept as its text). -/
def parseNumber (cs : List Char) : Option (PyVal × List Char) :=
  let p : Bool × List Char :=
    match cs with
    | '-' :: rest => (true, rest)
    | _ => (false, cs)
  match takeDigitsList p.2 with
  | ([], _) => Option.none
  | (ds, rest1) =>
    if 1 < ds.length && ds.head? = some '0' then Option.none
    else
      match parseFrac rest1 with
      | Option.none => Option.none
      | some (frPart, rest2) =>
        match parseExp rest2 with
        | Option.none => Option.none
        | some (exPart, rest3) =>
          if frPart.isEmpty && exPart.isEmpty then
            some (PyVal.pyInt (if p.1 then -(Int.ofNat (digitsToNat ds)) else Int.ofNat (digitsToNat ds)), rest3)
          else
            some (PyVal.pyFloat (String.mk ((if p.1 then ['-'] else []) ++ ds ++ frPart ++ exPart)), rest3)

/-- Value of one hexadecimal digit character, by code point: 0-9, a-f, A-F. -/
def hexVal (c : Char) : Option Nat :=
  match c.toNat with
  | n =>
    if 48 ≤ n && n ≤ 57 then some (n - 48)
    else if 97 ≤ n && n ≤ 102 then some (n - 87)
    else if 65 ≤ n && n ≤ 70 then some (n - 55)
    else Option.none

/-- Parse the body of a JSON string after the opening quote.  Escapes are
decoded as Python's strict decoder does; a raw control character is an
error.  A `\u` escape is decoded for scalar values (surrogate pairing of two
escapes is not modelled; no string in this development uses escapes). -/
def parseStrBody : List Char → Option (List Char × List Char)
  | [] => Option.none
  | '"' :: rest => some ([], rest)
  | '\\' :: e :: rest =>
    match e with
    | '"' => (parseStrBody rest).map fun pr => ('"' :: pr.1, pr.2)
    | '\\' => (parseStrBody rest).map fun pr => ('\\' :: pr.1, pr.2)
    | '/' => (parseStrBody rest).map fun pr => ('/' :: pr.1, pr.2)
    | 'b' => (parseStrBody rest).map fun pr => ('\x08' :: pr.1, pr.2)
    | 'f' => (parseStrBody rest).map fun pr => ('\x0c' :: pr.1, pr.2)
    | 'n' => (parseStrBody rest).map fun pr => ('\n' :: pr.1, pr.2)
    | 'r' => (parseStrBody rest).map fun pr => ('\r' :: pr.1, pr.2)
    | 't' => (parseStrBody rest).map fun pr => ('\t' :: pr.1, pr.2)
    | 'u' =>
      match rest with
      | a :: b :: c :: d :: rest2 =>
        match hexVal a, hexVal b, hexVal c, hexVal d with
        | some ha, some hb, some hc, some hd =>
          (parseStrBody rest2).map fun pr =>
            (Char.ofNat (((ha * 16 + hb) * 16 + hc) * 16 + hd) :: pr.1, pr.2)
        | _, _, _, _ => Option.none
      | _ => Option.none
    | _ => Option.none
  | c :: rest =>
    if c.toNat < 0x20 then Option.none
    else (parseStrBody rest).map fun pr => (c :: pr.1, pr.2)

/-- Parser modes: a value, the remaining items of an array, or the remaining
fields of an object. -/
inductive PMode where
  | value : PMode
  | items : List PyVal → PMode
  | fields : List (String × PyVal) → PMode

/-- Recursive-descent JSON parser (the grammar Python's `json.loads` accepts,
including the non-standard `NaN` / `Infinity` / `-Infinity` literals).  Fuel
decreases on every recursive call; the wrapper supplies enough fuel for any
input of the given length. -/
def parseF : Nat → PMode → List Char → Option (PyVal × List Char)
  | 0, _, _ => Option.none
  | fuel + 1, PMode.value, cs =>
    match skipWs cs with
    | [] => Option.none
    | c :: rest =>
      if c = 'n' then (stripLit rest ['u', 'l', 'l']).map fun r => (PyVal.pyNone, r)
      else if c = 't' then (stripLit rest ['r', 'u', 'e']).map fun r => (PyVal.pyBool true, r)
      else if c = 'f' then (stripLit rest ['a', 'l', 's', 'e']).map fun r => (PyVal.pyBool false, r)
      else if c = 'N' then (stripLit rest ['a', 'N']).map fun r => (PyVal.pyFloat ("nan"), r)
      else if c = 'I' then
        (stripLit rest ['n', 'f', 'i', 'n', 'i', 't', 'y']).map fun r => (PyVal.pyFloat ("inf"), r)
      else if c = '"' then (parseStrBody rest).map fun pr => (PyVal.pyStr (String.mk pr.1), pr.2)
      else if c = '[' then
        match skipWs rest with
        | ']' :: r2 => some (PyVal.pyList [], r2)
        | r2 => parseF fuel (PMode.items []) r2
      else if c = '\x7b' then
        match skipWs rest with
        | '\x7d' :: r2 => some (PyVal.pyDict [], r2)
        | r2 => parseF fuel (PMode.fields []) r2
      else if c = '-' then
        match stripLit rest ['I', 'n', 'f', 'i', 'n', 'i', 't', 'y'] with
        | some r2 => some (PyVal.pyFloat ("-inf"), r2)
        | Option.none => parseNumber (c :: rest)
      else if c.isDigit then parseNumber (c :: rest)
      else Option.none
  | fuel + 1, PMode.items acc, cs =>
    match parseF fuel PMode.value cs with
    | Option.none => Option.none
    | some (v, cs1) =>
      match skipWs cs1 with
      | ',' :: cs2 => parseF fuel (PMode.items (acc ++ [v])) cs2
      | ']' :: cs2 => some (PyVal.pyList (acc ++ [v]), cs2)
      | _ => Option.none
  | fuel + 1, PMode.fields acc, cs =>
    match skipWs cs with
    | '"' :: cs1 =>
      match parseStrBody cs1 with
      | Option.none => Option.none
      | some (kcs, cs2) =>
        match skipWs cs2 with
        | ':' :: cs3 =>
          match parseF fuel PMode.value cs3 with
          | Option.none => Option.none
          | some (v, cs4) =>
            match skipWs cs4 with
            | ',' :: cs5 => parseF fuel (PMode.fields (dictInsert acc (String.mk kcs) v)) cs5
            | '\x7d' :: cs5 => some (PyVal.pyDict (dictInsert acc (String.mk kcs) v), cs5)
            | _ => Option.none
        | _ => Option.none
    | _ => Option.none

/-- Python `json.loads` on a string: parse one value, demand only whitespace
after it, and fail (the caught ValueError) otherwise. -/
def jsonLoads (s : String) : Option PyVal :=
  match parseF (2 * s.data.length + 4) PMode.value s.data with
  | some (v, rest) => if (skipWs rest).isEmpty then some v else Option.none
  | Option.none => Option.none

/-- Lowercase hexadecimal digit character for a value below 16, by code
point (json.dumps emits lowercase hex in escapes). -/
def hexDigitCh (n : Nat) : Char :=
  Char.ofNat (if n < 10 then 48 + n else 87 + n)

/-- Escape one character as Python's default (ensure_ascii) JSON encoder
does.  Characters outside the basic multilingual plane would really be two
surrogate escapes; nothing in this development serializes one. -/
def escapeJsonChar (c : Char) : String :=
  if c = '"' then "\\\""
  else if c = '\\' then "\\\\"
  else if c = '\n' then "\\n"
  else if c = '\r' then "\\r"
  else if c = '\t' then "\\t"
  else if c = '\x08' then "\\b"
  else if c = '\x0c' then "\\f"
  else if c.toNat < 0x20 || 0x7e < c.toNat then
    String.mk ('\\' :: 'u' ::
      [12, 8, 4, 0].map fun sh => hexDigitCh ((c.toNat >>> sh) % 16))
  else String.mk [c]

def dumpJsonStr (s : String) : String :=
  "\"" ++ concatSep ("") (s.data.map escapeJsonChar) ++ "\""

/-- Python `json.dumps` with default options (item separator comma-space,
ensure_ascii).  Fuel bounds the recursion depth at 1000, mirroring CPython's
default recursion limit; deeper values, which raise RecursionError in
Python, are outside the model. -/
def pyDumpsF : Nat → PyVal → String
  | 0, _ => ""
  | fuel + 1, v =>
    match v with
    | PyVal.pyNone => "null"
    | PyVal.pyBool true => "true"
    | PyVal.pyBool false => "false"
    | PyVal.pyInt n => toString n
    | PyVal.pyFloat lit => lit
    | PyVal.pyStr s => dumpJsonStr s
    | PyVal.pyList xs => "[" ++ concatSep (", ") (xs.map fun x => pyDumpsF fuel x) ++ "]"
    | PyVal.pyDict fs =>
      "\x7b" ++ concatSep (", ") (fs.map fun kv => dumpJsonStr kv.1 ++ ": " ++ pyDumpsF fuel kv.2) ++ "\x7d"

def jsonDumps (v : PyVal) : String := pyDumpsF 1000 v

def asStrList : List PyVal → Option (List String)
  | [] => some []
  | PyVal.pyStr s :: rest => (asStrList rest).map fun t => s :: t
  | _ :: _ => Option.none

/-- Python `", ".join(xs)`: succeeds when every element is a string and
raises TypeError (here: `none`) otherwise. -/
def joinComma (xs : List PyVal) : Option String := (asStrList xs).map (concatSep (", "))

/-- Write-path dependency normalization (app.py lines 133-135): a list-valued
`dependencies` field is serialized with `json.dumps`, anything else is stored
unchanged. -/
def writeDeps : PyVal → PyVal
  | PyVal.pyList xs => PyVal.pyStr (jsonDumps (PyVal.pyList xs))
  | d => d

/-- Read-path dependency normalization (app.py lines 165-171): try
`json.loads` on the stored value; on success the variable is rebound to the
parsed value, and a parsed list is replaced by its comma-join when that join
succeeds; any exception is swallowed, leaving the value bound at the point
the exception was raised. -/
def readDeps : PyVal → PyVal
  | PyVal.pyStr s =>
    match jsonLoads s with
    | Option.none => PyVal.pyStr s
    | some (PyVal.pyList xs) =>
      match joinComma xs with
      | some j => PyVal.pyStr j
      | Option.none => PyVal.pyList xs
    | some w => w
  | d => d

/-- One formatted task of the GET /api/get-all-goals response. -/
def formatTaskFields (desc deps dl : PyVal) : PyVal :=
  PyVal.pyDict [("task_description", desc), ("dependencies", readDeps deps), ("deadline", dl)]

def takeDigitsRun (cs : List Char) : List Char × List Char := takeDigitsList cs

/-- Search for the Python regex `(\d+)\s*hour` in the way `re.search` runs it:
try each start position left to right; at a digit, the greedy runs of digits
and spaces followed by the literal `hour` decide the match (no shorter run
can succeed, since the character after a shorter run is a digit or a space).
Returns the text of capture group 1. -/
def hourSearchAux : List Char → Option String
  | [] => Option.none
  | c :: rest =>
    if c.isDigit then
      let p := takeDigitsRun (c :: rest)
      if startsWithList (p.2.dropWhile pyIsSpaceCh) ['h', 'o', 'u', 'r'] then
        some (String.mk p.1)
      else hourSearchAux rest
    else hourSearchAux rest

/-- The regex search `re.search(r"(\d+)\s*hour", text)` from
`generate_plan_locally`, giving group 1 when a match exists. -/
def hourSearch (text : String) : Option String := hourSearchAux text.data

/-- One task produced by the local plan generator: the three string fields of
the dict literals in `generate_plan_locally`. -/
structure PlanTask where
  task_description : String
  dependencies : String
  deadline : String
deriving DecidableEq

def task1 : PlanTask :=
  ⟨"Clarify and break down the goal into actionable steps.", "None", "Today"⟩

def hourTaskFor (d : String) : PlanTask :=
  ⟨"Work for " ++ d ++ " hour(s).", "Clarify and break down the goal", "Today"⟩

def genericWorkTask : PlanTask :=
  ⟨"Work on the project (time-boxed session).", "Clarify and break down the goal", "Today"⟩

def mealTask : PlanTask := ⟨"Take meal breaks.", "None", "Today"⟩

def sleepTask : PlanTask := ⟨"Sleep adequately.", "Finish work", "Tonight"⟩

def reviewTask : PlanTask := ⟨"Review and adjust the plan.", "Complete initial tasks", "Today"⟩

def mealWords : List String := ["eat", "lunch", "food", "dinner", "breakfast"]

/-- The meal-keyword check `any(w in text for w in [...])` on the lowered text. -/
def mealIn (text : String) : Bool := mealWords.any fun w => containsSub text w

/-- The check `"sleep" in text` on the lowered text. -/
def sleepIn (text : String) : Bool := containsSub text ("sleep")

/-- Local fallback plan generator (app.py lines 72-97), returning the value
of the `tasks` key of the returned dict. -/
def generate_plan_locally (goal_text : String) : List PlanTask :=
  let text := pyLower goal_text
  let tasks := [task1]
  let tasks := tasks ++ [match hourSearch text with
    | some d => hourTaskFor d
    | Option.none => genericWorkTask]
  let tasks := if mealIn text then tasks ++ [mealTask] else tasks
  let tasks := if sleepIn text then tasks ++ [sleepTask] else tasks
  if tasks.length < 3 then tasks ++ [reviewTask] else tasks

/-- A local task as the Python dict value it is in the program. -/
def PlanTask.toPy (t : PlanTask) : PyVal :=
  PyVal.pyDict [("task_description", PyVal.pyStr t.task_description),
    ("dependencies", PyVal.pyStr t.dependencies), ("deadline", PyVal.pyStr t.deadline)]

/-- The full return value `{"tasks": tasks}` of `generate_plan_locally`. -/
def localResult (goal_text : String) : PyVal :=
  PyVal.pyDict [("tasks", PyVal.pyList ((generate_plan_locally goal_text).map PlanTask.toPy))]

/-- Outcome of the one outbound chat-completion call: the call raised, or it
returned a message whose content is the given string. -/
inductive ApiOutcome where
  | fail : ApiOutcome
  | ok : String → ApiOutcome

/-- What the try block of `generate_plan_with_groq` evaluates to: `None` when
the call raised or `json.loads` on the returned content raised (both caught
by the `except` clause), otherwise the parsed value. -/
def apiParse : ApiOutcome → Option PyVal
  | ApiOutcome.fail => Option.none
  | ApiOutcome.ok s => jsonLoads s

/-- Remote plan generator (app.py lines 47-68).  `clientInit` is whether the
module-level `client` is initialized; when it is not, the function raises
ConnectionError before entering the try block, so that error is not caught. -/
def generate_plan_with_groq (clientInit : Bool) (api : ApiOutcome) : Except PyErr (Option PyVal) :=
  if clientInit = false then
    Except.error (PyErr.connectionError ("Groq client not initialized."))
  else Except.ok (apiParse api)

/-- A stored goal document (the `_id` is the key it is stored under). -/
structure GoalDoc where
  goal_text : String
  created_at : Nat
deriving DecidableEq

/-- A stored task document. -/
structure TaskDoc where
  goal_id : Nat
  task_description : PyVal
  dependencies : PyVal
  deadline : PyVal

/-- The document store: the goals and tasks collections, and the next id the
store assigns (ObjectIds modelled as naturals). -/
structure Db where
  goals : List (Nat × GoalDoc)
  tasks : List TaskDoc
  nextId : Nat

/-- Insert events, in the order the handler issues them. -/
inductive DbEvent where
  | goalInsert : Nat → DbEvent
  | taskInsert : Nat → DbEvent
deriving DecidableEq

/-- An HTTP response: status code and JSON body. -/
structure Resp where
  status : Nat
  body : PyVal

def errResp (msg : String) : Resp :=
  ⟨400, PyVal.pyDict [("error", PyVal.pyStr msg)]⟩

/-- The task document built for one task of the plan (the body of the insert
loop, app.py lines 132-142), including the write-path serialization of a
list-valued `dependencies`. -/
def docOfItem (gid : Nat) (fs : List (String × PyVal)) : TaskDoc :=
  ⟨gid, dictGetDefault fs ("task_description"),
    writeDeps (dictGetDefault fs ("dependencies")), dictGetDefault fs ("deadline")⟩

/-- The insert loop over the chosen tasks: each task must be a dict (`.get`
on anything else raises AttributeError); its document is appended to the
tasks collection and an insert event is recorded. -/
def storeTasks (gid : Nat) : List PyVal → Db → Except PyErr (Db × List DbEvent)
  | [], db => Except.ok (db, [])
  | t :: rest, db =>
    match t with
    | PyVal.pyDict fs =>
      match storeTasks gid rest ⟨db.goals, db.tasks ++ [docOfItem gid fs], db.nextId⟩ with
      | Except.error e => Except.error e
      | Except.ok (db2, evs) => Except.ok (db2, DbEvent.taskInsert gid :: evs)
    | _ => Except.error (PyErr.attributeError ("value has no attribute get"))

/-- The storage-and-response tail of the handler (app.py lines 126-152):
insert the goal document, iterate the tasks inserting their documents, and
build the 200 response, whose `tasks` field is the value taken from the
chosen plan, not the serialized documents. -/
def storeAndRespond (goal_text : String) (tasksVal : PyVal) (fb : Bool) (now : Nat)
    (db : Db) : Except PyErr (Resp × Db × List DbEvent) :=
  match pyIter tasksVal with
  | Except.error e => Except.error e
  | Except.ok items =>
    match storeTasks db.nextId items
        ⟨db.goals ++ [(db.nextId, ⟨goal_text, now⟩)], db.tasks, db.nextId + 1⟩ with
    | Except.error e => Except.error e
    | Except.ok (db2, tevs) =>
      Except.ok (⟨200, PyVal.pyDict [("goal_id", PyVal.pyStr (toString db.nextId)),
          ("goal_text", PyVal.pyStr goal_text), ("tasks", tasksVal),
          ("used_fallback", PyVal.pyBool fb)]⟩,
        db2, DbEvent.goalInsert db.nextId :: tevs)

/-- The fallback test `if not plan_data or "tasks" not in plan_data`, with
Python's short-circuit: `not None` and a falsy value decide without
evaluating the membership, which can itself raise TypeError. -/
def fallbackNeeded : Option PyVal → Except PyErr Bool
  | Option.none => Except.ok true
  | some v =>
    if pyTruthy v = false then Except.ok true
    else
      match pyContainsStr ("tasks") v with
      | Except.error e => Except.error e
      | Except.ok c => Except.ok (!c)

/-- The POST /api/generate-plan handler (app.py lines 105-152).  `data` is the
parsed request JSON (`none` when there is no usable body), `now` the insert
timestamp, `db` the store.  Unhandled Python exceptions surface as
`Except.error`; the partial writes a failing request may leave behind are not
tracked. -/
def generate_plan_endpoint (clientInit : Bool) (api : ApiOutcome) (data : Option PyVal)
    (now : Nat) (db : Db) : Except PyErr (Resp × Db × List DbEvent) :=
  match data with
  | Option.none => Except.ok (errResp ("JSON must contain \x27goal\x27"), db, [])
  | some d =>
    if pyTruthy d = false then Except.ok (errResp ("JSON must contain \x27goal\x27"), db, [])
    else
      match pyContainsStr ("goal") d with
      | Except.error e => Except.error e
      | Except.ok false => Except.ok (errResp ("JSON must contain \x27goal\x27"), db, [])
      | Except.ok true =>
        match pySubscriptStr d ("goal") with
        | Except.error e => Except.error e
        | Except.ok (PyVal.pyStr raw) =>
          if pyStrip raw = "" then Except.ok (errResp ("Goal cannot be empty"), db, [])
          else
            match generate_plan_with_groq clientInit api with
            | Except.error e => Except.error e
            | Except.ok plan_data =>
              match fallbackNeeded plan_data with
              | Except.error e => Except.error e
              | Except.ok fb =>
                match pySubscriptStr
                    (if fb then localResult (pyStrip raw) else plan_data.getD PyVal.pyNone)
                    ("tasks") with
                | Except.error e => Except.error e
                | Except.ok tasksVal => storeAndRespond (pyStrip raw) tasksVal fb now db
        | Except.ok _ => Except.error (PyErr.attributeError ("value has no attribute strip"))

/-- The goal-text predicates the local generator branches on, lifted to the
raw goal string. -/
def hasMealKw (g : String) : Bool := mealIn (pyLower g)

def hasSleepKw (g : String) : Bool := sleepIn (pyLower g)

/-- Status of a handler outcome: the HTTP status when a response was
returned, nothing when an exception escaped. -/
def epStatus (r : Except PyErr (Resp × Db × List DbEvent)) : Option Nat :=
  match r with
  | Except.ok t => some t.1.status
  | Except.error _ => Option.none

/-- Look up a key of the response body, when a response with a dict body was
returned. -/
def epBodyLookup (r : Except PyErr (Resp × Db × List DbEvent)) (k : String) : Option PyVal :=
  match r with
  | Except.ok t =>
    match t.1.body with
    | PyVal.pyDict fs => dictLookup fs k
    | _ => Option.none
  | Except.error _ => Option.none

/-- The keys of the response body, in order. -/
def epBodyKeys (r : Except PyErr (Resp × Db × List DbEvent)) : Option (List String) :=
  match r with
  | Except.ok t =>
    match t.1.body with
    | PyVal.pyDict fs => some (fs.map Prod.fst)
    | _ => Option.none
  | Except.error _ => Option.none

def epEvents (r : Except PyErr (Resp × Db × List DbEvent)) : List DbEvent :=
  match r with
  | Except.ok t => t.2.2
  | Except.error _ => []

def epDbGoals (r : Except PyErr (Resp × Db × List DbEvent)) : Option (List (Nat × GoalDoc)) :=
  match r with
  | Except.ok t => some t.2.1.goals
  | Except.error _ => Option.none

def epDbTasks (r : Except PyErr (Resp × Db × List DbEvent)) : Option (List TaskDoc) :=
  match r with
  | Except.ok t => some t.2.1.tasks
  | Except.error _ => Option.none

/-- An empty store, used to instantiate concrete runs. -/
def dbEmpty : Db := ⟨[], [], 0⟩

/-- Predicate from the specification's wording: the Remote Plan Generator
returned a failure signal (None) or a structure lacking a `tasks` key.  It is
compared against the fallback decision the code actually takes. -/
def remoteFailedOrNoTasks : Option PyVal → Bool
  | Option.none => true
  | some (PyVal.pyDict fs) => (dictLookup fs ("tasks")).isNone
  | some _ => true

/-- A dict value carrying the three task fields. -/
def hasTaskFields (v : PyVal) : Bool :=
  match v with
  | PyVal.pyDict fs =>
    (dictLookup fs ("task_description")).isSome && (dictLookup fs ("dependencies")).isSome
      && (dictLookup fs ("deadline")).isSome
  | _ => false

theorem strDataAppend (a b : String) : (a ++ b).data = a.data ++ b.data := rfl

/-- Closed form of the local generator: the two base tasks, then the meal and
sleep tasks in check order, then the review task exactly when the first two
were all that was produced. -/
theorem local_plan_eq (g : String) :
    generate_plan_locally g =
      [task1, match hourSearch (pyLower g) with
        | some d => hourTaskFor d
        | Option.none => genericWorkTask] ++
      (if hasMealKw g then [mealTask] else []) ++
      (if hasSleepKw g then [sleepTask] else []) ++
      (if hasMealKw g || hasSleepKw g then [] else [reviewTask]) := by
  unfold generate_plan_locally hasMealKw hasSleepKw
  cases hM : mealIn (pyLower g) <;> cases hS : sleepIn (pyLower g) <;>
    cases hH : hourSearch (pyLower g) <;> simp [hM, hS, hH]

theorem storeTasks_ok (gid : Nat) (items : List PyVal) :
    ∀ (db db2 : Db) (evs : List DbEvent), storeTasks gid items db = Except.ok (db2, evs) →
    ∃ fss : List (List (String × PyVal)), items = fss.map PyVal.pyDict ∧
      db2.goals = db.goals ∧ db2.nextId = db.nextId ∧
      db2.tasks = db.tasks ++ fss.map (docOfItem gid) ∧
      evs = fss.map (fun _ => DbEvent.taskInsert gid) := by
  induction items with
  | nil =>
    intro db db2 evs h
    simp only [storeTasks, Except.ok.injEq, Prod.mk.injEq] at h
    exact ⟨[], by simp [← h.1, ← h.2]⟩
  | cons t rest ih =>
    intro db db2 evs h
    cases t with
    | pyDict fs =>
      simp only [storeTasks] at h
      cases hrec : storeTasks gid rest ⟨db.goals, db.tasks ++ [docOfItem gid fs], db.nextId⟩ with
      | error e => rw [hrec] at h; simp at h
      | ok p =>
        obtain ⟨db3, evs3⟩ := p
        rw [hrec] at h
        simp only [Except.ok.injEq, Prod.mk.injEq] at h
        obtain ⟨h1, h2⟩ := h
        subst h1
        subst h2
        obtain ⟨fss, hf1, hf2, hf3, hf4, hf5⟩ := ih _ _ _ hrec
        subst hf5
        exact ⟨fs :: fss, by simp [hf1], by simpa using hf2, by simpa using hf3,
          by simp [hf4], by simp⟩
    | pyNone => simp [storeTasks] at h
    | pyBool b => simp [storeTasks] at h
    | pyInt n => simp [storeTasks] at h
    | pyFloat l => simp [storeTasks] at h
    | pyStr s => simp [storeTasks] at h
    | pyList xs => simp [storeTasks] at h

theorem storeTasks_total (gid : Nat) (items : List PyVal)
    (h : ∀ t ∈ items, ∃ fs, t = PyVal.pyDict fs) :
    ∀ db, ∃ out, storeTasks gid items db = Except.ok out := by
  induction items with
  | nil => intro db; exact ⟨(db, []), rfl⟩
  | cons t rest ih =>
    intro db
    obtain ⟨fs, rfl⟩ := h t (by simp)
    obtain ⟨⟨db2, evs⟩, hrec⟩ :=
      ih (fun x hx => h x (by simp [hx])) ⟨db.goals, db.tasks ++ [docOfItem gid fs], db.nextId⟩
    exact ⟨(db2, DbEvent.taskInsert gid :: evs), by simp [storeTasks, hrec]⟩

theorem storeAndRespond_ok (g : String) (tv : PyVal) (fb : Bool) (now : Nat) (db : Db)
    (resp : Resp) (db2 : Db) (evs : List DbEvent)
    (h : storeAndRespond g tv fb now db = Except.ok (resp, db2, evs)) :
    ∃ items tevs,
      pyIter tv = Except.ok items ∧
      storeTasks db.nextId items ⟨db.goals ++ [(db.nextId, ⟨g, now⟩)], db.tasks, db.nextId + 1⟩
        = Except.ok (db2, tevs) ∧
      resp = ⟨200, PyVal.pyDict [("goal_id", PyVal.pyStr (toString db.nextId)),
        ("goal_text", PyVal.pyStr g), ("tasks", tv), ("used_fallback", PyVal.pyBool fb)]⟩ ∧
      evs = DbEvent.goalInsert db.nextId :: tevs := by
  unfold storeAndRespond at h
  split at h
  next e hI => simp at h
  next items hI =>
    split at h
    next e hS => simp at h
    next db3 tevs hS =>
      simp only [Except.ok.injEq, Prod.mk.injEq] at h
      obtain ⟨h1, h2, h3⟩ := h
      exact ⟨items, tevs, hI, by rw [← h2]; exact hS, h1.symm, h3.symm⟩

theorem endpoint_ok200_inv (clientInit : Bool) (api : ApiOutcome) (data : Option PyVal)
    (now : Nat) (db : Db) (resp : Resp) (db2 : Db) (evs : List DbEvent)
    (h : generate_plan_endpoint clientInit api data now db = Except.ok (resp, db2, evs))
    (hs : resp.status = 200) :
    ∃ d raw fb tasksVal,
      data = some d ∧ pyTruthy d = true ∧ pyContainsStr ("goal") d = Except.ok true ∧
      pySubscriptStr d ("goal") = Except.ok (PyVal.pyStr raw) ∧ pyStrip raw ≠ "" ∧
      clientInit = true ∧
      fallbackNeeded (apiParse api) = Except.ok fb ∧
      pySubscriptStr (if fb then localResult (pyStrip raw) else (apiParse api).getD PyVal.pyNone)
        ("tasks") = Except.ok tasksVal ∧
      storeAndRespond (pyStrip raw) tasksVal fb now db = Except.ok (resp, db2, evs) := by
  unfold generate_plan_endpoint at h
  split at h
  · simp only [Except.ok.injEq, Prod.mk.injEq] at h
    rw [← h.1] at hs
    simp [errResp] at hs
  · rename_i d
    split at h
    · simp only [Except.ok.injEq, Prod.mk.injEq] at h
      rw [← h.1] at hs
      simp [errResp] at hs
    · rename_i hT
      split at h
      · simp at h
      · simp only [Except.ok.injEq, Prod.mk.injEq] at h
        rw [← h.1] at hs
        simp [errResp] at hs
      · rename_i hC
        split at h
        · simp at h
        · rename_i raw hG
          split at h
          · simp only [Except.ok.injEq, Prod.mk.injEq] at h
            rw [← h.1] at hs
            simp [errResp] at hs
          · rename_i hE
            split at h
            · simp at h
            · rename_i plan_data hW
              split at h
              · simp at h
              · rename_i fb hF
                split at h
                · simp at h
                · rename_i tasksVal hV
                  have hci : clientInit = true := by
                    cases clientInit
                    · simp [generate_plan_with_groq] at hW
                    · rfl
                  have hpd : plan_data = apiParse api := by
                    rw [hci] at hW
                    simp [generate_plan_with_groq] at hW
                    exact hW.symm
                  subst hpd
                  exact ⟨d, raw, fb, tasksVal, rfl, by simpa using hT, hC, hG, hE, hci, hF, hV, h⟩
        · simp at h

/-- The fallback decision the handler takes agrees with the specification's
description of it whenever the remote result respects the remote generator's
output contract (None or a parsed JSON object). -/
theorem fallbackNeeded_eq_spec (r : Option PyVal)
    (hr : r = Option.none ∨ ∃ fs, r = some (PyVal.pyDict fs)) :
    fallbackNeeded r = Except.ok (remoteFailedOrNoTasks r) := by
  rcases hr with rfl | ⟨fs, rfl⟩
  · rfl
  · cases fs with
    | nil => rfl
    | cons kv rest =>
      simp only [fallbackNeeded, pyTruthy, remoteFailedOrNoTasks, pyContainsStr,
        List.isEmpty_cons, Bool.not_false]
      cases hq : dictLookup (kv :: rest) ("tasks") <;> simp [hq]

theorem localResult_tasks (g : String) :
    pySubscriptStr (localResult g) ("tasks")
      = Except.ok (PyVal.pyList ((generate_plan_locally g).map PlanTask.toPy)) := rfl

theorem review_ne_task1 : reviewTask ≠ task1 := by decide
theorem review_ne_generic : reviewTask ≠ genericWorkTask := by decide
theorem review_ne_meal : reviewTask ≠ mealTask := by decide
theorem review_ne_sleep : reviewTask ≠ sleepTask := by decide
theorem review_ne_hourTask (d : String) : reviewTask ≠ hourTaskFor d := by
  intro h
  have h2 : reviewTask.dependencies = (hourTaskFor d).dependencies := by rw [h]
  have h3 : ("Complete initial tasks" : String) = "Clarify and break down the goal" := h2
  exact absurd h3 (by decide)

/-- C3: for every non-empty goal string, the local plan generator returns a
list of at least 3 tasks, each carrying the description, dependencies and
deadline fields (it is a total function of the goal, hence never raises and
is deterministic). -/
theorem c3_local_generator_contract (g : String) (hg : g ≠ "") :
    3 ≤ (generate_plan_locally g).length ∧
    ∀ t ∈ generate_plan_locally g, hasTaskFields (PlanTask.toPy t) = true := by
  constructor
  · rw [local_plan_eq]
    cases hM : hasMealKw g <;> cases hS : hasSleepKw g <;> simp
  · intro t _
    rfl

theorem c3_witness :
    ("Plan my day" : String) ≠ "" ∧ 3 ≤ (generate_plan_locally ("Plan my day")).length :=
  ⟨by decide, (c3_local_generator_contract ("Plan my day") (by decide)).1⟩

/-- C5: when the lowered goal text matches the hour regex, the second task is
the matched work task (description containing the captured count followed by
a space and the text hour(s), deadline Today, dependencies a prefix of the
first task's description); otherwise the second task is the generic
time-boxed work task with the same dependencies and deadline. -/
theorem c5_hour_rule (g : String) :
    (∀ d, hourSearch (pyLower g) = some d →
      (generate_plan_locally g).get? 1 = some (hourTaskFor d) ∧
      (∃ pre post, (hourTaskFor d).task_description.data
        = pre ++ (d ++ " hour(s)").data ++ post) ∧
      (hourTaskFor d).deadline = "Today" ∧
      (∃ tail, task1.task_description = (hourTaskFor d).dependencies ++ tail)) ∧
    (hourSearch (pyLower g) = Option.none →
      (generate_plan_locally g).get? 1 = some genericWorkTask ∧
      genericWorkTask.dependencies = "Clarify and break down the goal" ∧
      genericWorkTask.deadline = "Today") := by
  constructor
  · intro d hd
    refine ⟨?_, ?_, rfl, " into actionable steps.", ?_⟩
    · rw [local_plan_eq, hd]
      cases hM : hasMealKw g <;> cases hS : hasSleepKw g <;> simp
    · refine ⟨"Work for ".data, ['.'], ?_⟩
      show ("Work for " ++ d ++ " hour(s).").data = _
      rw [strDataAppend, strDataAppend, strDataAppend]
      have h1 : (" hour(s).").data = (" hour(s)").data ++ ['.'] := rfl
      rw [h1]
      simp [List.append_assoc]
    · show task1.task_description = "Clarify and break down the goal" ++ " into actionable steps."
      decide
  · intro hd
    refine ⟨?_, rfl, rfl⟩
    rw [local_plan_eq, hd]
    cases hM : hasMealKw g <;> cases hS : hasSleepKw g <;> simp

theorem c5_witness :
    (generate_plan_locally ("Work 3 hours")).get? 1 = some (hourTaskFor ("3")) ∧
    (generate_plan_locally ("Tidy desk")).get? 1 = some genericWorkTask :=
  ⟨((c5_hour_rule ("Work 3 hours")).1 ("3") rfl).1, ((c5_hour_rule ("Tidy desk")).2 rfl).1⟩

/-- C6: the meal and sleep keyword checks are independent and additive; a
meal keyword puts the meal-break task (dependencies None, deadline Today) at
index 2, the sleep keyword puts the sleep task (dependencies Finish work,
deadline Tonight) right after the tasks produced so far, and a goal matching
both gets both, meal before sleep. -/
theorem c6_meal_sleep_additive (g : String) :
    (hasMealKw g = true → (generate_plan_locally g).get? 2 = some mealTask ∧
      mealTask.dependencies = "None" ∧ mealTask.deadline = "Today") ∧
    (hasSleepKw g = true →
      (generate_plan_locally g).get? (if hasMealKw g then 3 else 2) = some sleepTask ∧
      sleepTask.dependencies = "Finish work" ∧ sleepTask.deadline = "Tonight") ∧
    (hasMealKw g = true → hasSleepKw g = true →
      (generate_plan_locally g).get? 2 = some mealTask ∧
      (generate_plan_locally g).get? 3 = some sleepTask) := by
  refine ⟨fun hM => ⟨?_, rfl, rfl⟩, fun hS => ⟨?_, rfl, rfl⟩, fun hM hS => ⟨?_, ?_⟩⟩
  · rw [local_plan_eq, hM]
    cases hS2 : hasSleepKw g <;> simp
  · rw [local_plan_eq, hS]
    cases hM2 : hasMealKw g <;> simp
  · rw [local_plan_eq, hM, hS]
    simp
  · rw [local_plan_eq, hM, hS]
    simp

theorem c6_witness :
    (generate_plan_locally ("eat and sleep")).get? 2 = some mealTask ∧
    (generate_plan_locally ("eat and sleep")).get? 3 = some sleepTask :=
  (c6_meal_sleep_additive ("eat and sleep")).2.2 rfl rfl

/-- C10: the local generator never returns more than 4 tasks, and the review
task is appended exactly when the goal text matches neither the meal keywords
nor sleep, in which case the output has exactly 3 tasks. -/
theorem c10_bound_and_review (g : String) :
    (generate_plan_locally g).length ≤ 4 ∧
    (reviewTask ∈ generate_plan_locally g ↔ (hasMealKw g = false ∧ hasSleepKw g = false)) ∧
    (hasMealKw g = false → hasSleepKw g = false → (generate_plan_locally g).length = 3) := by
  rw [local_plan_eq]
  cases hM : hasMealKw g <;> cases hS : hasSleepKw g <;>
    cases hH : hourSearch (pyLower g) <;>
      simp [review_ne_task1, review_ne_generic, review_ne_meal, review_ne_sleep,
        review_ne_hourTask]

theorem c10_witness : (generate_plan_locally ("Ship the release")).length = 3 :=
  (c10_bound_and_review ("Ship the release")).2.2 rfl rfl

/-- C4 counterexample: the plain string 3 is a non-list dependencies value
that does not survive the write-then-read normalization unchanged; the read
path turns it into the integer 3. -/
theorem c4_counterexample :
    writeDeps (PyVal.pyStr ("3")) = PyVal.pyStr ("3") ∧
    readDeps (writeDeps (PyVal.pyStr ("3"))) = PyVal.pyInt 3 ∧
    PyVal.pyInt 3 ≠ PyVal.pyStr ("3") :=
  ⟨rfl, rfl, fun h => PyVal.noConfusion h⟩

/-- C4 (amended): serializing the list [A, B] then deserializing yields the
string A, B; the plain string None round-trips unchanged; and a non-list
value is left unchanged by write-then-read whenever it is not a string that
json.loads can parse (a parseable string is instead replaced by its parsed,
possibly comma-joined, value, as the counterexample shows). -/
theorem c4_roundtrip_amended :
    readDeps (writeDeps (PyVal.pyList [PyVal.pyStr ("A"), PyVal.pyStr ("B")]))
      = PyVal.pyStr ("A, B") ∧
    readDeps (writeDeps (PyVal.pyStr ("None"))) = PyVal.pyStr ("None") ∧
    ∀ v, (∀ xs, v ≠ PyVal.pyList xs) → (∀ s, v = PyVal.pyStr s → jsonLoads s = Option.none) →
      readDeps (writeDeps v) = v := by
  refine ⟨rfl, rfl, ?_⟩
  intro v h1 h2
  cases v with
  | pyList xs => exact absurd rfl (h1 xs)
  | pyStr s =>
    have hp := h2 s rfl
    simp [writeDeps, readDeps, hp]
  | pyNone => rfl
  | pyBool b => rfl
  | pyInt n => rfl
  | pyFloat l => rfl
  | pyDict fs => rfl

theorem c4_witness : readDeps (writeDeps PyVal.pyNone) = PyVal.pyNone :=
  c4_roundtrip_amended.2.2 PyVal.pyNone (fun xs h => PyVal.noConfusion h)
    (fun s h => PyVal.noConfusion h)

/-- C2 counterexample: with the client capability uninitialized, the request
with non-empty goal Plan my week is not handled like a runtime call failure;
no response is produced at all, the ConnectionError escapes the handler. -/
theorem c2_counterexample :
    generate_plan_endpoint false ApiOutcome.fail
        (some (PyVal.pyDict [("goal", PyVal.pyStr ("Plan my week"))])) 0 dbEmpty
      = Except.error (PyErr.connectionError ("Groq client not initialized.")) ∧
    epStatus (generate_plan_endpoint false ApiOutcome.fail
        (some (PyVal.pyDict [("goal", PyVal.pyStr ("Plan my week"))])) 0 dbEmpty)
      = Option.none :=
  ⟨rfl, rfl⟩

/-- C2 (amended): when the client capability was never initialized, any
request carrying a non-empty goal makes `generate_plan_with_groq` raise
ConnectionError before its try block, the handler has no handler for it, and
the configuration-error signal escapes instead of being recovered by the
local fallback. -/
theorem c2_uninitialized_client_error_escapes (api : ApiOutcome) (data : Option PyVal)
    (now : Nat) (db : Db) (d : PyVal) (raw : String)
    (hd : data = some d) (hT : pyTruthy d = true)
    (hC : pyContainsStr ("goal") d = Except.ok true)
    (hG : pySubscriptStr d ("goal") = Except.ok (PyVal.pyStr raw))
    (hne : pyStrip raw ≠ "") :
    generate_plan_endpoint false api data now db
      = Except.error (PyErr.connectionError ("Groq client not initialized.")) := by
  subst hd
  simp [generate_plan_endpoint, hT, hC, hG, hne, generate_plan_with_groq]

theorem c2_witness :
    generate_plan_endpoint false ApiOutcome.fail
        (some (PyVal.pyDict [("goal", PyVal.pyStr ("Organize my notes"))])) 3 dbEmpty
      = Except.error (PyErr.connectionError ("Groq client not initialized.")) :=
  c2_uninitialized_client_error_escapes ApiOutcome.fail _ 3 dbEmpty _ ("Organize my notes")
    rfl rfl rfl rfl (by decide)

/-- C1: for a request that produced a response, the used_fallback field of
the body is true exactly when the remote generator returned None or a parsed
object without a tasks key, and when it is false the response's tasks field
is exactly the remote object's tasks value. -/
theorem c1_used_fallback_iff (clientInit : Bool) (api : ApiOutcome) (data : Option PyVal)
    (now : Nat) (db : Db) (r : Option PyVal)
    (hr : generate_plan_with_groq clientInit api = Except.ok r)
    (hshape : r = Option.none ∨ ∃ fs, r = some (PyVal.pyDict fs))
    (h200 : epStatus (generate_plan_endpoint clientInit api data now db) = some 200) :
    epBodyLookup (generate_plan_endpoint clientInit api data now db) ("used_fallback")
      = some (PyVal.pyBool (remoteFailedOrNoTasks r)) ∧
    (remoteFailedOrNoTasks r = false →
      ∃ fs tv, r = some (PyVal.pyDict fs) ∧ dictLookup fs ("tasks") = some tv ∧
        epBodyLookup (generate_plan_endpoint clientInit api data now db) ("tasks")
          = some tv) := by
  cases hE : generate_plan_endpoint clientInit api data now db with
  | error e => rw [hE] at h200; simp [epStatus] at h200
  | ok trip =>
    obtain ⟨resp, db2, evs⟩ := trip
    rw [hE] at h200
    simp only [epStatus, Option.some.injEq] at h200
    obtain ⟨d, raw, fb, tasksVal, hd, hT, hC, hG, hne, hci, hF, hV, hS⟩ :=
      endpoint_ok200_inv _ _ _ _ _ _ _ _ hE h200
    have hr2 : r = apiParse api := by
      rw [hci] at hr
      simp only [generate_plan_with_groq, Bool.true_eq_false, if_false,
        Except.ok.injEq] at hr
      exact hr.symm
    rw [← hr2] at hF hV
    have hfb : fb = remoteFailedOrNoTasks r := by
      have hsp := fallbackNeeded_eq_spec r hshape
      rw [hsp] at hF
      exact (Except.ok.inj hF).symm
    obtain ⟨items, tevs, hI, hST, hresp, hevs⟩ := storeAndRespond_ok _ _ _ _ _ _ _ _ hS
    subst hresp
    constructor
    · simp [epBodyLookup, dictLookup, hfb]
    · intro hfalse
      rcases hshape with rfl | ⟨fs, rfl⟩
      · simp [remoteFailedOrNoTasks] at hfalse
      · cases hq : dictLookup fs ("tasks") with
        | none => simp [remoteFailedOrNoTasks, hq] at hfalse
        | some tv =>
          refine ⟨fs, tv, rfl, hq, ?_⟩
          rw [hfb, hfalse] at hV
          simp only [Bool.false_eq_true, if_false, Option.getD_some] at hV
          simp only [pySubscriptStr, hq] at hV
          have htveq : tv = tasksVal := Except.ok.inj hV
          simp [epBodyLookup, dictLookup, ← htveq]

theorem c1_witness :
    epBodyLookup (generate_plan_endpoint true ApiOutcome.fail
        (some (PyVal.pyDict [("goal", PyVal.pyStr ("Organize a trip"))])) 0 dbEmpty)
      ("used_fallback") = some (PyVal.pyBool true) ∧
    epBodyLookup (generate_plan_endpoint true
        (ApiOutcome.ok ("\x7b\"tasks\": [\x7b\"task_description\": \"T\", \"dependencies\": \"None\", \"deadline\": \"Today\"\x7d]\x7d"))
        (some (PyVal.pyDict [("goal", PyVal.pyStr ("Organize a trip"))])) 0 dbEmpty)
      ("used_fallback") = some (PyVal.pyBool false) :=
  ⟨(c1_used_fallback_iff true ApiOutcome.fail
      (some (PyVal.pyDict [("goal", PyVal.pyStr ("Organize a trip"))])) 0 dbEmpty
      Option.none rfl (Or.inl rfl) rfl).1,
   (c1_used_fallback_iff true
      (ApiOutcome.ok ("\x7b\"tasks\": [\x7b\"task_description\": \"T\", \"dependencies\": \"None\", \"deadline\": \"Today\"\x7d]\x7d"))
      (some (PyVal.pyDict [("goal", PyVal.pyStr ("Organize a trip"))])) 0 dbEmpty
      (some (PyVal.pyDict [("tasks", PyVal.pyList [PyVal.pyDict
        [("task_description", PyVal.pyStr ("T")), ("dependencies", PyVal.pyStr ("None")),
         ("deadline", PyVal.pyStr ("Today"))]])]))
      rfl
      (Or.inr ⟨[("tasks", PyVal.pyList [PyVal.pyDict
        [("task_description", PyVal.pyStr ("T")), ("dependencies", PyVal.pyStr ("None")),
         ("deadline", PyVal.pyStr ("Today"))]])], rfl⟩) rfl).1⟩

/-- C7 counterexample: a request with the non-empty goal Write an essay does
not get a 200 response when the client capability is uninitialized; the
handler produces no response at all (the ConnectionError escapes). -/
theorem c7_counterexample :
    epStatus (generate_plan_endpoint false ApiOutcome.fail
        (some (PyVal.pyDict [("goal", PyVal.pyStr ("Write an essay"))])) 0 dbEmpty)
      = Option.none := rfl

/-- C7 (amended): requests whose JSON is missing, lacks a goal key, or whose
goal strips to the empty string get a 400 with an error body; and a request
with a non-empty goal gets a 200 whose body has exactly the keys goal_id,
goal_text, tasks and used_fallback, provided the client capability is
initialized and, when the remote result suppresses the fallback, its tasks
value is a list of dict tasks (otherwise the handler raises instead). -/
theorem c7_amended (clientInit : Bool) (api : ApiOutcome) (data : Option PyVal)
    (now : Nat) (db : Db) :
    (data = Option.none →
      generate_plan_endpoint clientInit api data now db
        = Except.ok (errResp ("JSON must contain \x27goal\x27"), db, [])) ∧
    (∀ fs, data = some (PyVal.pyDict fs) → dictLookup fs ("goal") = Option.none →
      generate_plan_endpoint clientInit api data now db
        = Except.ok (errResp ("JSON must contain \x27goal\x27"), db, [])) ∧
    (∀ d raw, data = some d → pyTruthy d = true →
      pyContainsStr ("goal") d = Except.ok true →
      pySubscriptStr d ("goal") = Except.ok (PyVal.pyStr raw) → pyStrip raw = "" →
      generate_plan_endpoint clientInit api data now db
        = Except.ok (errResp ("Goal cannot be empty"), db, [])) ∧
    (∀ d raw fb, clientInit = true → data = some d → pyTruthy d = true →
      pyContainsStr ("goal") d = Except.ok true →
      pySubscriptStr d ("goal") = Except.ok (PyVal.pyStr raw) → pyStrip raw ≠ "" →
      fallbackNeeded (apiParse api) = Except.ok fb →
      (fb = false → ∃ fs xs, apiParse api = some (PyVal.pyDict fs) ∧
        dictLookup fs ("tasks") = some (PyVal.pyList xs) ∧
        ∀ x ∈ xs, ∃ gs, x = PyVal.pyDict gs) →
      epStatus (generate_plan_endpoint clientInit api data now db) = some 200 ∧
      epBodyKeys (generate_plan_endpoint clientInit api data now db)
        = some ["goal_id", "goal_text", "tasks", "used_fallback"]) := by
  refine ⟨?_, ?_, ?_, ?_⟩
  · intro h
    subst h
    rfl
  · intro fs h hq
    subst h
    cases fs with
    | nil => rfl
    | cons kv rest =>
      simp [generate_plan_endpoint, pyTruthy, pyContainsStr, hq]
  · intro d raw h hT hC hG hE
    subst h
    simp [generate_plan_endpoint, hT, hC, hG, hE]
  · intro d raw fb hci hdata hT hC hG hne hF husable
    subst hdata
    subst hci
    cases fb with
    | true =>
      have hall : ∀ x ∈ (generate_plan_locally (pyStrip raw)).map PlanTask.toPy,
          ∃ gs, x = PyVal.pyDict gs := by
        intro x hx
        rw [List.mem_map] at hx
        obtain ⟨t, _, rfl⟩ := hx
        exact ⟨_, rfl⟩
      obtain ⟨⟨db2, tevs⟩, hst⟩ := storeTasks_total db.nextId
        ((generate_plan_locally (pyStrip raw)).map PlanTask.toPy) hall
        ⟨db.goals ++ [(db.nextId, ⟨pyStrip raw, now⟩)], db.tasks, db.nextId + 1⟩
      have hEE : generate_plan_endpoint true api (some d) now db
          = Except.ok (⟨200, PyVal.pyDict [("goal_id", PyVal.pyStr (toString db.nextId)),
              ("goal_text", PyVal.pyStr (pyStrip raw)),
              ("tasks", PyVal.pyList ((generate_plan_locally (pyStrip raw)).map PlanTask.toPy)),
              ("used_fallback", PyVal.pyBool true)]⟩, db2,
            DbEvent.goalInsert db.nextId :: tevs) := by
        simp [generate_plan_endpoint, hT, hC, hG, hne, generate_plan_with_groq, hF,
          localResult_tasks, storeAndRespond, pyIter, hst]
      rw [hEE]
      exact ⟨rfl, rfl⟩
    | false =>
      obtain ⟨fs, xs, hpa, hlk, hall⟩ := husable rfl
      obtain ⟨⟨db2, tevs⟩, hst⟩ := storeTasks_total db.nextId xs hall
        ⟨db.goals ++ [(db.nextId, ⟨pyStrip raw, now⟩)], db.tasks, db.nextId + 1⟩
      have hF2 : fallbackNeeded (some (PyVal.pyDict fs)) = Except.ok false := hpa ▸ hF
      have hsub : pySubscriptStr (PyVal.pyDict fs) ("tasks") = Except.ok (PyVal.pyList xs) := by
        simp [pySubscriptStr, hlk]
      have hEE : generate_plan_endpoint true api (some d) now db
          = Except.ok (⟨200, PyVal.pyDict [("goal_id", PyVal.pyStr (toString db.nextId)),
              ("goal_text", PyVal.pyStr (pyStrip raw)), ("tasks", PyVal.pyList xs),
              ("used_fallback", PyVal.pyBool false)]⟩, db2,
            DbEvent.goalInsert db.nextId :: tevs) := by
        simp [generate_plan_endpoint, hT, hC, hG, hne, generate_plan_with_groq, hpa, hF2,
          hsub, storeAndRespond, pyIter, hst]
      rw [hEE]
      exact ⟨rfl, rfl⟩

theorem c7_witness :
    generate_plan_endpoint true ApiOutcome.fail Option.none 0 dbEmpty
      = Except.ok (errResp ("JSON must contain \x27goal\x27"), dbEmpty, []) ∧
    epBodyKeys (generate_plan_endpoint true ApiOutcome.fail
        (some (PyVal.pyDict [("goal", PyVal.pyStr ("Paint the fence"))])) 0 dbEmpty)
      = some ["goal_id", "goal_text", "tasks", "used_fallback"] :=
  ⟨(c7_amended true ApiOutcome.fail Option.none 0 dbEmpty).1 rfl,
   ((c7_amended true ApiOutcome.fail
      (some (PyVal.pyDict [("goal", PyVal.pyStr ("Paint the fence"))])) 0 dbEmpty).2.2.2
      (PyVal.pyDict [("goal", PyVal.pyStr ("Paint the fence"))]) ("Paint the fence") true
      rfl rfl rfl rfl rfl (by decide) rfl (fun hff => Bool.noConfusion hff)).2⟩

/-- C8: in any 200 response, the tasks field of the body is exactly the value
produced by the chosen generator, in generator order with dependencies as
returned (the local task list under fallback, the remote object's tasks value
otherwise), while the documents appended to the store carry the
write-path-serialized dependencies; the storage serialization does not modify
the response list. -/
theorem c8_response_tasks_unmodified (clientInit : Bool) (api : ApiOutcome)
    (data : Option PyVal) (now : Nat) (db : Db)
    (h200 : epStatus (generate_plan_endpoint clientInit api data now db) = some 200) :
    ∃ (d : PyVal) (raw : String) (fb : Bool) (tasksVal : PyVal) (items : List PyVal)
      (fss : List (List (String × PyVal))),
      data = some d ∧
      pySubscriptStr d ("goal") = Except.ok (PyVal.pyStr raw) ∧
      epBodyLookup (generate_plan_endpoint clientInit api data now db) ("tasks")
        = some tasksVal ∧
      epBodyLookup (generate_plan_endpoint clientInit api data now db) ("used_fallback")
        = some (PyVal.pyBool fb) ∧
      (fb = true →
        tasksVal = PyVal.pyList ((generate_plan_locally (pyStrip raw)).map PlanTask.toPy)) ∧
      (fb = false → ∃ fs, apiParse api = some (PyVal.pyDict fs) ∧
        dictLookup fs ("tasks") = some tasksVal) ∧
      pyIter tasksVal = Except.ok items ∧
      items = fss.map PyVal.pyDict ∧
      epDbTasks (generate_plan_endpoint clientInit api data now db)
        = some (db.tasks ++ fss.map (docOfItem db.nextId)) := by
  cases hE : generate_plan_endpoint clientInit api data now db with
  | error e => rw [hE] at h200; simp [epStatus] at h200
  | ok trip =>
    obtain ⟨resp, db2, evs⟩ := trip
    rw [hE] at h200
    simp only [epStatus, Option.some.injEq] at h200
    obtain ⟨d, raw, fb, tasksVal, hd, hT, hC, hG, hne, hci, hF, hV, hS⟩ :=
      endpoint_ok200_inv _ _ _ _ _ _ _ _ hE h200
    obtain ⟨items, tevs, hI, hST, hresp, hevs⟩ := storeAndRespond_ok _ _ _ _ _ _ _ _ hS
    subst hresp
    obtain ⟨fss, hfss, _, _, htasks, _⟩ := storeTasks_ok _ _ _ _ _ hST
    refine ⟨d, raw, fb, tasksVal, items, fss, hd, hG, ?_, ?_, ?_, ?_, hI, hfss, ?_⟩
    · simp [epBodyLookup, dictLookup]
    · simp [epBodyLookup, dictLookup]
    · intro hfb
      subst hfb
      rw [if_pos rfl, localResult_tasks] at hV
      exact (Except.ok.inj hV).symm
    · intro hfb
      subst hfb
      rw [if_neg (by simp)] at hV
      cases hap : apiParse api with
      | none => rw [hap] at hV; simp [pySubscriptStr] at hV
      | some v =>
        rw [hap] at hV
        cases v with
        | pyDict fs =>
          cases hq : dictLookup fs ("tasks") with
          | none => simp [pySubscriptStr, hq] at hV
          | some tv =>
            simp only [Option.getD_some, pySubscriptStr, hq] at hV
            exact ⟨fs, rfl, by rw [hq, Except.ok.inj hV]⟩
        | pyNone => simp [pySubscriptStr] at hV
        | pyBool b => simp [pySubscriptStr] at hV
        | pyInt n => simp [pySubscriptStr] at hV
        | pyFloat l => simp [pySubscriptStr] at hV
        | pyStr s => simp [pySubscriptStr] at hV
        | pyList ys => simp [pySubscriptStr] at hV
    · simp only [epDbTasks]
      rw [htasks]

theorem c8_witness :
    ∃ (d : PyVal) (raw : String) (fb : Bool) (tasksVal : PyVal) (items : List PyVal)
      (fss : List (List (String × PyVal))),
      (some (PyVal.pyDict [("goal", PyVal.pyStr ("Bake bread"))]) : Option PyVal) = some d ∧
      pySubscriptStr d ("goal") = Except.ok (PyVal.pyStr raw) ∧
      epBodyLookup (generate_plan_endpoint true ApiOutcome.fail
        (some (PyVal.pyDict [("goal", PyVal.pyStr ("Bake bread"))])) 0 dbEmpty) ("tasks")
        = some tasksVal ∧
      epBodyLookup (generate_plan_endpoint true ApiOutcome.fail
        (some (PyVal.pyDict [("goal", PyVal.pyStr ("Bake bread"))])) 0 dbEmpty) ("used_fallback")
        = some (PyVal.pyBool fb) ∧
      (fb = true →
        tasksVal = PyVal.pyList ((generate_plan_locally (pyStrip raw)).map PlanTask.toPy)) ∧
      (fb = false → ∃ fs, apiParse ApiOutcome.fail = some (PyVal.pyDict fs) ∧
        dictLookup fs ("tasks") = some tasksVal) ∧
      pyIter tasksVal = Except.ok items ∧
      items = fss.map PyVal.pyDict ∧
      epDbTasks (generate_plan_endpoint true ApiOutcome.fail
        (some (PyVal.pyDict [("goal", PyVal.pyStr ("Bake bread"))])) 0 dbEmpty)
        = some (dbEmpty.tasks ++ fss.map (docOfItem dbEmpty.nextId)) :=
  c8_response_tasks_unmodified true ApiOutcome.fail
    (some (PyVal.pyDict [("goal", PyVal.pyStr ("Bake bread"))])) 0 dbEmpty rfl

/-- C9: every successful (200) run of the handler first records the goal
insert, then only task inserts carrying that goal's id; the final store holds
the new goal and the appended task documents all reference it, so each stored
task's goal_id refers to a stored goal. -/
theorem c9_goal_inserted_before_tasks (clientInit : Bool) (api : ApiOutcome)
    (data : Option PyVal) (now : Nat) (db : Db)
    (h200 : epStatus (generate_plan_endpoint clientInit api data now db) = some 200) :
    ∃ (gid : Nat) (gdoc : GoalDoc) (tevs : List DbEvent) (docs : List TaskDoc),
      epEvents (generate_plan_endpoint clientInit api data now db)
        = DbEvent.goalInsert gid :: tevs ∧
      (∀ e ∈ tevs, e = DbEvent.taskInsert gid) ∧
      epDbGoals (generate_plan_endpoint clientInit api data now db)
        = some (db.goals ++ [(gid, gdoc)]) ∧
      epDbTasks (generate_plan_endpoint clientInit api data now db)
        = some (db.tasks ++ docs) ∧
      (∀ td ∈ docs, td.goal_id = gid) ∧
      (gid, gdoc) ∈ db.goals ++ [(gid, gdoc)] := by
  cases hE : generate_plan_endpoint clientInit api data now db with
  | error e => rw [hE] at h200; simp [epStatus] at h200
  | ok trip =>
    obtain ⟨resp, db2, evs⟩ := trip
    rw [hE] at h200
    simp only [epStatus, Option.some.injEq] at h200
    obtain ⟨d, raw, fb, tasksVal, hd, hT, hC, hG, hne, hci, hF, hV, hS⟩ :=
      endpoint_ok200_inv _ _ _ _ _ _ _ _ hE h200
    obtain ⟨items, tevs, hI, hST, hresp, hevs⟩ := storeAndRespond_ok _ _ _ _ _ _ _ _ hS
    obtain ⟨fss, hfss, hgoals, _, htasks, hevs2⟩ := storeTasks_ok _ _ _ _ _ hST
    refine ⟨db.nextId, ⟨pyStrip raw, now⟩, tevs, fss.map (docOfItem db.nextId), ?_, ?_, ?_, ?_, ?_, ?_⟩
    · simp [epEvents, hevs]
    · intro e he
      rw [hevs2] at he
      simp only [List.mem_map] at he
      obtain ⟨x, _, rfl⟩ := he
      rfl
    · simp only [epDbGoals, Option.some.injEq]
      simpa using hgoals
    · simp only [epDbTasks, Option.some.injEq]
      simpa using htasks
    · intro td htd
      simp only [List.mem_map] at htd
      obtain ⟨x, _, rfl⟩ := htd
      rfl
    · simp

theorem c9_witness :
    ∃ (gid : Nat) (gdoc : GoalDoc) (tevs : List DbEvent) (docs : List TaskDoc),
      epEvents (generate_plan_endpoint true ApiOutcome.fail
        (some (PyVal.pyDict [("goal", PyVal.pyStr ("Read a novel"))])) 7 dbEmpty)
        = DbEvent.goalInsert gid :: tevs ∧
      (∀ e ∈ tevs, e = DbEvent.taskInsert gid) ∧
      epDbGoals (generate_plan_endpoint true ApiOutcome.fail
        (some (PyVal.pyDict [("goal", PyVal.pyStr ("Read a novel"))])) 7 dbEmpty)
        = some (dbEmpty.goals ++ [(gid, gdoc)]) ∧
      epDbTasks (generate_plan_endpoint true ApiOutcome.fail
        (some (PyVal.pyDict [("goal", PyVal.pyStr ("Read a novel"))])) 7 dbEmpty)
        = some (dbEmpty.tasks ++ docs) ∧
      (∀ td ∈ docs, td.goal_id = gid) ∧
      (gid, gdoc) ∈ dbEmpty.goals ++ [(gid, gdoc)] :=
  c9_goal_inserted_before_tasks true ApiOutcome.fail
    (some (PyVal.pyDict [("goal", PyVal.pyStr ("Read a novel"))])) 7 dbEmpty rfl
